import Mathlib

/-!
Shallow embedding of the server core of the redis-go repository: the
responseWriter state machine, the prepared-response interleaver and the
serveRequest flow, the MULTI transaction buffering loop of serveConnection,
the Shutdown polling loop, and the Args variants with ParseArgs.

Conventions of the embedding:
* RESP values written by handlers are modelled as strings; the external
  objconv encoders are modelled as appending events to the connection's
  write buffer (`wire`), and encoding into a buffer is modelled as always
  succeeding.  `WireEvent.openStream n` is the array frame emitted by
  `StreamEncoder.Open(n)`; `WireEvent.val v` is one encoded RESP value.
* `res.conn != nil` is modelled by the boolean field `hasConn`.
* Go `int` counters that are provably non-negative on every path that
  stores them are kept as `Nat`; the `n` argument of WriteStream is an
  `Int` because the source checks `n < 0`.
-/

namespace RedisGo

/-- One item appended to the connection's write buffer by the encoders. -/
inductive WireEvent where
  | openStream (n : Nat)
  | val (v : String)
deriving DecidableEq, Repr

/-- The error sentinels returned by responseWriter operations. -/
inductive RWErr where
  | ErrHijacked
  | ErrNegativeStreamCount
  | ErrWriteStreamCalledAfterWrite
  | ErrWriteStreamCalledTooManyTimes
  | ErrWriteCalledTooManyTimes
  | ErrWriteCalledNotEnoughTimes
deriving DecidableEq, Repr

/-- `responseWriterType` from the source: notype, oneshot, stream. -/
inductive responseWriterType where
  | notype
  | oneshot
  | stream
deriving DecidableEq, Repr

/-- The state of a `responseWriter`: whether `res.conn` is still non-nil,
the writer type, the remaining write count, and the contents of the
connection's write buffer.  The encoder / stream-encoder / timeout fields
carry no state the embedded operations observe beyond the buffer. -/
structure responseWriter where
  hasConn : Bool
  wtype : responseWriterType
  remain : Nat
  wire : List WireEvent
deriving DecidableEq, Repr

/-- A freshly constructed responseWriter, as built by serveCommands:
`&responseWriter{conn: c, timeout: ...}` (zero values otherwise). -/
def responseWriter.init : responseWriter :=
  { hasConn := true, wtype := .notype, remain := 0, wire := [] }

/-- `responseWriter.WriteStream` from the source, returning the error and
the updated state. -/
def responseWriter.WriteStream (res : responseWriter) (n : Int) :
    Option RWErr × responseWriter :=
  if res.hasConn = false then (some .ErrHijacked, res)
  else if n < 0 then (some .ErrNegativeStreamCount, res)
  else
    match res.wtype with
    | .oneshot => (some .ErrWriteStreamCalledAfterWrite, res)
    | .stream => (some .ErrWriteStreamCalledTooManyTimes, res)
    | .notype =>
        (none, { res with
                   wtype := .stream,
                   remain := n.toNat,
                   wire := res.wire ++ [.openStream n.toNat] })

/-- `responseWriter.Write` from the source. -/
def responseWriter.Write (res : responseWriter) (v : String) :
    Option RWErr × responseWriter :=
  if res.hasConn = false then (some .ErrHijacked, res)
  else
    let r1 := if res.wtype = .notype
              then { res with wtype := .oneshot, remain := 1 }
              else res
    if r1.remain = 0 then (some .ErrWriteCalledTooManyTimes, r1)
    else (none, { r1 with remain := r1.remain - 1, wire := r1.wire ++ [.val v] })

/-- `responseWriter.Flush` from the source: in state notype it first writes
"OK", then requires the remaining count to be zero, then flushes the
buffer (buffer flushing is modelled as always succeeding). -/
def responseWriter.Flush (res : responseWriter) :
    Option RWErr × responseWriter :=
  if res.hasConn = false then (some .ErrHijacked, res)
  else
    match (if res.wtype = .notype then res.Write "OK" else (none, res)) with
    | (some e, r1) => (some e, r1)
    | (none, r1) =>
        if r1.remain = 0 then (none, r1)
        else (some .ErrWriteCalledNotEnoughTimes, r1)

/-- Outcome of a call to `responseWriter.Hijack`. -/
inductive HijackOutcome where
  | ok
  | errHijacked
  | panicNilConn
deriving DecidableEq, Repr

/-- `responseWriter.Hijack` from the source.  The source sets
`res.conn = nil` and then calls `res.conn.setState(StateHijacked)`.
Modelled from the spec: `Conn.setState` (whose body is not under src/)
updates the connection's state tag and therefore dereferences its
receiver, so calling it on the nil pointer panics before Hijack can
return the connection and buffers. -/
def responseWriter.Hijack (res : responseWriter) :
    HijackOutcome × responseWriter :=
  if res.hasConn = false then (.errHijacked, res)
  else (.panicNilConn, { res with hasConn := false })

/-- An operation a handler can perform on the ResponseWriter it is given. -/
inductive WOp where
  | writeStream (n : Int)
  | write (v : String)
deriving DecidableEq, Repr

/-- Apply one handler operation to a responseWriter, keeping the error. -/
def responseWriter.applyOpE (res : responseWriter) : WOp → Option RWErr × responseWriter
  | .writeStream n => res.WriteStream n
  | .write v => res.Write v

/-- Apply one handler operation, dropping the error (handlers may ignore
returned errors; serveRedis only fails on panic). -/
def responseWriter.applyOp (res : responseWriter) (op : WOp) : responseWriter :=
  (res.applyOpE op).2

/-- Run a sequence of handler operations against a responseWriter. -/
def responseWriter.applyOps (res : responseWriter) : List WOp → responseWriter
  | [] => res
  | op :: ops => (res.applyOp op).applyOps ops

/-- One `(index, value)` pair collected for a server-synthesised reply. -/
structure preparedResponse where
  index : Nat
  value : String
deriving DecidableEq, Repr

/-- State of a `preparedResponseWriter`: the wrapped base writer, the
running index, and the pending prepared responses. -/
structure preparedResponseWriter where
  base : responseWriter
  index : Nat
  responses : List preparedResponse
deriving DecidableEq, Repr

/-- `preparedResponseWriter.WriteStream` from the source: it always
returns ErrWriteStreamCalledTooManyTimes and touches nothing. -/
def preparedResponseWriter.WriteStream (res : preparedResponseWriter) (_n : Int) :
    Option RWErr × preparedResponseWriter :=
  (some .ErrWriteStreamCalledTooManyTimes, res)

/-- `preparedResponseWriter.Write` from the source: if the head prepared
response is due at the current index it is written to the base first (an
error there returns without advancing); then the index advances and the
handler's value is written to the base. -/
def preparedResponseWriter.Write (res : preparedResponseWriter) (v : String) :
    Option RWErr × preparedResponseWriter :=
  let step : Option RWErr × preparedResponseWriter :=
    match res.responses with
    | r :: rest =>
        if r.index = res.index then
          match res.base.Write r.value with
          | (some e, b) => (some e, { res with base := b })
          | (none, b) => (none, { res with base := b, responses := rest })
        else (none, res)
    | [] => (none, res)
  match step with
  | (some e, r1) => (some e, r1)
  | (none, r1) =>
      let r2 := { r1 with index := r1.index + 1 }
      match r2.base.Write v with
      | (e, b) => (e, { r2 with base := b })

/-- The loop body of `preparedResponseWriter.writeRemainingValues`:
write each remaining prepared value to the base, stopping at the first
error. -/
def writeRemainingLoop : List preparedResponse → responseWriter →
    Option RWErr × responseWriter
  | [], b => (none, b)
  | r :: rest, b =>
      match b.Write r.value with
      | (some e, b2) => (some e, b2)
      | (none, b2) => writeRemainingLoop rest b2

/-- `preparedResponseWriter.writeRemainingValues` from the source: flush
the pending prepared values into the base and clear the list (the list is
cleared even when a write fails). -/
def preparedResponseWriter.writeRemainingValues (res : preparedResponseWriter) :
    Option RWErr × preparedResponseWriter :=
  match writeRemainingLoop res.responses res.base with
  | (e, b) => (e, { res with base := b, responses := [] })

/-- Apply one handler operation to the prepared wrapper, keeping the error. -/
def preparedResponseWriter.applyOpE (res : preparedResponseWriter) :
    WOp → Option RWErr × preparedResponseWriter
  | .writeStream n => res.WriteStream n
  | .write v => res.Write v

/-- Apply one handler operation to the prepared wrapper, dropping the error. -/
def preparedResponseWriter.applyOp (res : preparedResponseWriter) (op : WOp) :
    preparedResponseWriter :=
  (res.applyOpE op).2

/-- Run a sequence of handler operations against the prepared wrapper. -/
def preparedResponseWriter.applyOps (res : preparedResponseWriter) :
    List WOp → preparedResponseWriter
  | [] => res
  | op :: ops => (res.applyOp op).applyOps ops

/-- A command of a request: opcode plus its (materialised) arguments. -/
structure Command where
  Cmd : String
  Args : List String
deriving DecidableEq, Repr

/-- The value a PING is answered with.  Modelled from the spec:
`Command.ParseArgs(&msg)` (the Command methods are not under src/) reads
the first argument into msg when one is present, so PING yields "PONG" or
the user-supplied argument. -/
def pingMessage (args : List String) : String :=
  match args with
  | [] => "PONG"
  | a :: _ => a

/-- The command loop of serveRequest: PING commands are stripped into
prepared `(index, value)` pairs, where index is the number of non-PING
commands seen so far; the other commands are compacted in order. -/
def stripPings : List Command → Nat → List Command × List preparedResponse
  | [], _ => ([], [])
  | cmd :: rest, i =>
      if cmd.Cmd = "PING" then
        let (kept, prep) := stripPings rest i
        (kept, ⟨i, pingMessage cmd.Args⟩ :: prep)
      else
        let (kept, prep) := stripPings rest (i + 1)
        (cmd :: kept, prep)

/-- `Server.serveRequest` from the source, with the handler abstracted as
the sequence of ResponseWriter operations it performs (serveRedis returns
an error only on a handler panic, which is not modelled, so the handler
contributes no error).  When prepared responses exist, the source sets
`w = preparedRes` and then calls `w.WriteStream(len(req.Cmds) +
len(preparedRes.responses))` - that is, on the wrapper, before req.Cmds
is truncated - discarding the returned error.  The handler runs only when
the truncated command list is non-empty; then remaining prepared values
are written, and finally `res.Flush()` runs on the base writer. -/
def serveRequest (cmds : List Command) (handler : List WOp) :
    Option RWErr × responseWriter :=
  let res := responseWriter.init
  let (kept, prepared) := stripPings cmds 0
  if prepared.isEmpty then
    let r1 := if kept.isEmpty then res else res.applyOps handler
    r1.Flush
  else
    let p0 : preparedResponseWriter := ⟨res, 0, prepared⟩
    let p1 := (p0.WriteStream (Int.ofNat (cmds.length + prepared.length))).2
    let p2 := if kept.isEmpty then p1 else p1.applyOps handler
    match p2.writeRemainingValues with
    | (some e, p3) => (some e, p3.base)
    | (none, p3) => p3.base.Flush

/-- The transaction-buffering loop of `Server.serveConnection`, entered
with `cmds = [MULTI]`.  Each iteration materialises the last buffered
command's args, writes one acknowledgement ("OK" when `len(cmds) == 0`,
"QUEUED" otherwise), then reads the next command; on a failed read the
appended blank command is truncated away and the loop ends.  `pending`
models the remaining commands the command reader will yield (the reader
returns false after the terminator, per the spec: EXEC/connection-close);
commands are identified by their opcode since only opcodes steer the
control flow.  Returns the buffered commands and the acknowledgements
written, in order. -/
def multiLoop (cmds acks : List String) : List String → List String × List String
  | [] =>
      (cmds, acks ++ [if cmds.length = 0 then "OK" else "QUEUED"])
  | c :: rest =>
      multiLoop (cmds ++ [c]) (acks ++ [if cmds.length = 0 then "OK" else "QUEUED"]) rest

/-- What the transaction path produces: the acknowledgements written on
the wire, the command batch handed to the handler (`none` when the batch
is dropped without invoking the handler), and whether the Go code panics
(the slice expression `cmds[1:lastIndex]` is out of range when
`lastIndex = 0`). -/
structure TxOutcome where
  acks : List String
  batch : Option (List String)
  panicked : Bool
deriving DecidableEq, Repr

/-- The MULTI branch of `Server.serveConnection`: run the buffering loop,
then if the last buffered command is DISCARD close its args, write a
final "OK" and drop the batch without invoking the handler; otherwise
hand `cmds[1:lastIndex]` to the handler. -/
def serveMulti (pending : List String) : TxOutcome :=
  match multiLoop ["MULTI"] [] pending with
  | (cmds, acks) =>
      let lastIndex := cmds.length - 1
      if cmds.getLast? = some "DISCARD" then
        { acks := acks ++ ["OK"], batch := none, panicked := false }
      else if lastIndex < 1 then
        { acks := acks, batch := none, panicked := true }
      else
        { acks := acks, batch := some ((cmds.drop 1).take (lastIndex - 1)),
          panicked := false }

/-- The values `ctx.Err()` can take. -/
inductive CtxErr where
  | canceled
  | deadlineExceeded
deriving DecidableEq, Repr

/-- The polling loop of `Server.Shutdown`: given the successive
observations of `numberOfActors()`, the index of the poll at which the
loop condition `numberOfActors() != 0` first fails, or `none` when the
loop is still running after the whole observed trace (the select on
`ctx.Done()` / the backoff timer has no effect on control flow: neither
case returns or breaks). -/
def shutdownReturnIndex : List Nat → Option Nat
  | [] => none
  | a :: rest =>
      if a = 0 then some 0
      else (shutdownReturnIndex rest).map (fun i => i + 1)

/-- `Server.Shutdown` from the source, over a trace of actor-count
observations and the value `ctx.Err()` has at each poll: `none` when
Shutdown has not returned within the trace, `some e` when the loop exits
and the final `return ctx.Err()` yields `e`. -/
def shutdownRun (trace : List Nat) (ctxErr : Nat → Option CtxErr) :
    Option (Option CtxErr) :=
  (shutdownReturnIndex trace).map ctxErr

/-- State observed through the `argsList` methods: the streaming
decoder's remaining length and the stored error. -/
structure argsList where
  decLen : Nat
  err : Option String
deriving DecidableEq, Repr

/-- `argsList.Len` from the source: 0 once an error is stored, else the
decoder's remaining count. -/
def argsList.Len (a : argsList) : Nat :=
  if a.err = none then a.decLen else 0

/-- State observed through the `multiArgs` methods: the `Len()` of each
inner Args value, the cursor, and the stored error. -/
structure multiArgs where
  innerLens : List Nat
  argn : Nat
  err : Option String
deriving DecidableEq, Repr

/-- `multiArgs.Len` from the source: the sum of the inner lengths when no
error is stored, else 0. -/
def multiArgs.Len (m : multiArgs) : Nat :=
  if m.err = none then m.innerLens.foldl (fun n a => n + a) 0 else 0

/-- `argsError` from the source: a terminal error carrier. -/
structure argsError where
  err : Option String
deriving DecidableEq, Repr

/-- `argsError.Len` from the source: always 0. -/
def argsError.Len (_ : argsError) : Nat := 0

/-- The kind of the destination pointer handed to `byteArgs.Next`,
mirroring the reflect.Kind dispatch in `byteArgs.next`. -/
inductive DstKind where
  | boolK
  | intK
  | uintK
  | floatK
  | stringK
  | bytesK
  | ifaceK
  | unsupportedK
deriving DecidableEq, Repr

/-- Success predicates for the external numeric parsers
(objutil.ParseInt, strconv.ParseUint, strconv.ParseFloat), which are
outside this repository; the embedding is parametric in them. -/
structure ExtParse where
  parseIntOk : String → Bool
  parseUintOk : String → Bool
  parseFloatOk : String → Bool

/-- `byteArgs.next` from the source: the coercion of one raw argument
into a destination of the given kind, returning the error it stores.
bool goes through the integer parser; string, byte-slice and interface
destinations always succeed; any other kind yields the "unsupported
output type" error. -/
def byteArgsNextErr (p : ExtParse) (k : DstKind) (a : String) : Option String :=
  match k with
  | .boolK => if p.parseIntOk a then none else some "parse int error"
  | .intK => if p.parseIntOk a then none else some "parse int error"
  | .uintK => if p.parseUintOk a then none else some "parse uint error"
  | .floatK => if p.parseFloatOk a then none else some "parse float error"
  | .stringK => none
  | .bytesK => none
  | .ifaceK => none
  | .unsupportedK =>
      some "unsupported output type for value in argument of a redis command"

/-- State of a `byteArgs` value: the unconsumed raw arguments (as byte
strings) and the stored error. -/
structure byteArgs where
  args : List String
  err : Option String
deriving DecidableEq, Repr

/-- `byteArgs.Len` from the source: `len(args.args)`, with no test of the
stored error. -/
def byteArgs.Len (b : byteArgs) : Nat := b.args.length

/-- `byteArgs.Next` from the source: nothing happens when the list is
empty or an error is already stored; otherwise the head argument is
popped, the coercion error (if any) is stored, and success is reported
when the coercion succeeded. -/
def byteArgs.Next (p : ExtParse) (k : DstKind) (b : byteArgs) : Bool × byteArgs :=
  match b.args with
  | [] => (false, b)
  | a :: rest =>
      if b.err = none then
        let e := byteArgsNextErr p k a
        (e = none, { args := rest, err := e })
      else (false, b)

/-- `byteArgs.Close` from the source: clears the argument list and
returns the stored error. -/
def byteArgs.Close (b : byteArgs) : Option String × byteArgs :=
  (b.err, { b with args := [] })

/-- Abstract model of a non-nil Args value as seen by `ParseArgs`: how
many values `Next` can still yield, and the error `Close` will report.
(In this repository no Args variant ever stores ErrNilArgs, so close
errors are kept apart from the nil-args sentinel in `PAResult`.) -/
structure SimpleArgs where
  vals : Nat
  closeErr : Option String
deriving DecidableEq, Repr

/-- The result of `ParseArgs`: success, the ErrNilArgs sentinel from the
nil guard, the error reported by `Close`, or the nil-pointer panic of
calling `Close` on a nil Args value. -/
inductive PAResult where
  | ok
  | errNilArgs
  | closeErr (e : String)
  | panicNilClose
deriving DecidableEq, Repr

/-- The Next loop of `ParseArgs` over a non-nil Args: each destination
consumes one value, breaking early when the values run out. -/
def SimpleArgs.nextCount (a : SimpleArgs) (dsts : Nat) : SimpleArgs :=
  { a with vals := a.vals - dsts }

/-- `ParseArgs` from the source: `if args == nil && len(dsts) != 0`
return ErrNilArgs; then run Next over the destinations; then return
`args.Close()` - which on a nil Args value is a nil dereference. -/
def ParseArgs (args : Option SimpleArgs) (dsts : Nat) : PAResult :=
  match args with
  | none => if dsts ≠ 0 then .errNilArgs else .panicNilClose
  | some a =>
      match (a.nextCount dsts).closeErr with
      | some e => .closeErr e
      | none => .ok

/-- Contract-violation errors of the ResponseWriter, per the spec's error
taxonomy. -/
def isContractViolation : RWErr → Bool
  | .ErrWriteCalledTooManyTimes => true
  | .ErrWriteStreamCalledAfterWrite => true
  | .ErrWriteStreamCalledTooManyTimes => true
  | .ErrNegativeStreamCount => true
  | _ => false

/-- Invariant of responseWriter states reachable by handler operations
from the initial state: the connection pointer is intact and the notype
state has a zero remaining count. -/
def goodState (s : responseWriter) : Prop :=
  s.hasConn = true ∧ (s.wtype = .notype → s.remain = 0)

theorem goodState_init : goodState responseWriter.init :=
  ⟨rfl, fun _ => rfl⟩

theorem goodState_applyOp (s : responseWriter) (op : WOp) (h : goodState s) :
    goodState (s.applyOp op) := by
  obtain ⟨hc, hw⟩ := h
  cases op with
  | writeStream n =>
      simp only [responseWriter.applyOp, responseWriter.applyOpE,
        responseWriter.WriteStream, hc]
      by_cases hn : n < 0 <;> cases hwt : s.wtype <;>
        simp [hn, hwt, goodState, hc] <;> exact hw hwt
  | write v =>
      simp only [responseWriter.applyOp, responseWriter.applyOpE,
        responseWriter.Write, hc]
      cases hwt : s.wtype <;> by_cases hr : s.remain = 0 <;>
        simp [hwt, hr, goodState, hc]

theorem goodState_applyOps (ops : List WOp) :
    ∀ s : responseWriter, goodState s → goodState (s.applyOps ops) := by
  induction ops with
  | nil => intro s h; exact h
  | cons op rest ih =>
      intro s h
      exact ih (s.applyOp op) (goodState_applyOp s op h)

/-- The acknowledgement trace of the transaction loop: since the loop is
entered with a non-empty command buffer and the buffer only grows, the
`lastIndex == 0` branch (the "OK" acknowledgement for MULTI) is
unreachable, and one "QUEUED" is written per iteration, including the
final iteration whose read fails. -/
theorem multiLoop_spec (pending : List String) :
    ∀ cmds acks : List String, cmds ≠ [] →
      multiLoop cmds acks pending =
        (cmds ++ pending, acks ++ List.replicate (pending.length + 1) "QUEUED") := by
  induction pending with
  | nil =>
      intro cmds acks h
      have hlen : ¬cmds.length = 0 := by
        simpa [List.length_eq_zero] using h
      simp [multiLoop, hlen]
  | cons c rest ih =>
      intro cmds acks h
      have hlen : ¬cmds.length = 0 := by
        simpa [List.length_eq_zero] using h
      rw [multiLoop, if_neg hlen, ih (cmds ++ [c]) (acks ++ ["QUEUED"]) (by simp)]
      simp [List.replicate_succ, List.append_assoc]

theorem shutdownReturnIndex_replicate_one (n : Nat) :
    shutdownReturnIndex (List.replicate n 1) = none := by
  induction n with
  | zero => rfl
  | succ k ih => simp [List.replicate_succ, shutdownReturnIndex, ih]

/-- C1: the claim says the engine calls WriteStream on the base response
writer exactly once with total = user commands + prepared responses, so
that the wire carries that many values and the final Flush succeeds.  In
the source, serveRequest sets `w = preparedRes` before calling
`w.WriteStream(...)`, so the call lands on preparedResponseWriter's own
WriteStream, which unconditionally returns
ErrWriteStreamCalledTooManyTimes without forwarding to the base, and the
error is discarded: for the request [PING, PING] no stream frame is ever
opened on the wire, the first prepared value puts the base in oneshot
mode, the second is rejected with ErrWriteCalledTooManyTimes, and Flush
is never reached. -/
theorem C1_base_writestream_never_called :
    serveRequest [⟨"PING", []⟩, ⟨"PING", []⟩] [] =
      (some RWErr.ErrWriteCalledTooManyTimes,
       { hasConn := true, wtype := .oneshot, remain := 0,
         wire := [WireEvent.val "PONG"] }) := rfl

/-- C2: the claim says a transaction MULTI cmd1 .. cmdk EXEC is
acknowledged with exactly 1 + k values, "+OK" first (for MULTI) and then
k "+QUEUED".  In the source the loop is entered with cmds = [MULTI], so
`lastIndex` is never 0 and the "OK" branch (commented "response to
MULTI") is dead: every acknowledgement is "QUEUED", and there are k + 2
of them because the iteration that reads EXEC and the final iteration
whose read fails each write one too. -/
theorem C2_multi_acknowledgements :
    serveMulti ["SET", "EXEC"] =
      { acks := ["QUEUED", "QUEUED", "QUEUED"], batch := some ["SET"],
        panicked := false } ∧
    ∀ cs : List String,
      serveMulti (cs ++ ["EXEC"]) =
        { acks := List.replicate (cs.length + 2) "QUEUED", batch := some cs,
          panicked := false } := by
  constructor
  · rfl
  · intro cs
    have h := multiLoop_spec (cs ++ ["EXEC"]) ["MULTI"] [] (by simp)
    unfold serveMulti
    rw [h]
    have hlast : ("MULTI" :: (cs ++ ["EXEC"])).getLast? = some "EXEC" := by
      rw [show ("MULTI" :: (cs ++ ["EXEC"])) = ("MULTI" :: cs) ++ ["EXEC"] by simp]
      exact List.getLast?_concat _
    simp [hlast, List.take_left]

/-- C3: for a transaction whose last buffered command is DISCARD, the
handler is never invoked, the server writes a final "OK" acknowledgement,
drops the buffered commands, and resumes the main loop (no panic). -/
theorem C3_discard_never_reaches_handler (cs : List String) :
    (serveMulti (cs ++ ["DISCARD"])).batch = none ∧
    (serveMulti (cs ++ ["DISCARD"])).acks.getLast? = some "OK" ∧
    (serveMulti (cs ++ ["DISCARD"])).panicked = false := by
  have h := multiLoop_spec (cs ++ ["DISCARD"]) ["MULTI"] [] (by simp)
  unfold serveMulti
  rw [h]
  have hlast : ("MULTI" :: (cs ++ ["DISCARD"])).getLast? = some "DISCARD" := by
    rw [show ("MULTI" :: (cs ++ ["DISCARD"])) = ("MULTI" :: cs) ++ ["DISCARD"] by simp]
    exact List.getLast?_concat _
  simp [hlast, List.getLast?_concat]

/-- C4: the claim says a first Hijack returns the connection and buffers
without error and moves the connection to state Hijacked.  In the source,
Hijack sets `res.conn = nil` and then calls `setState` on that nil
pointer, so the first Hijack panics with a nil dereference instead of
returning; no call ever returns successfully. -/
theorem C4_hijack_nil_dereference :
    responseWriter.init.Hijack =
      (HijackOutcome.panicNilConn, { responseWriter.init with hasConn := false }) ∧
    ∀ s : responseWriter,
      (s.Hijack).1 =
        if s.hasConn then HijackOutcome.panicNilConn else HijackOutcome.errHijacked := by
  constructor
  · rfl
  · intro s
    cases hc : s.hasConn <;> simp [responseWriter.Hijack, hc]

/-- C5: the claim says Shutdown(ctx) returns ctx.Err() iff actors remain
when ctx expires, and returns nil when the count drains even if ctx
expired during the wait.  In the source the select's ctx.Done() case does
not return, so the loop only exits when the actor count reaches 0, and
the final `return ctx.Err()` is then non-nil whenever ctx has already
expired: with one actor remaining forever and ctx long expired, Shutdown
has not returned after any number of polls; with the trace [1, 1, 0] and
ctx expiring at the second poll, Shutdown returns deadline-exceeded even
though the count drained. -/
theorem C5_shutdown_return_value :
    (∀ n : Nat,
        shutdownRun (List.replicate n 1) (fun _ => some CtxErr.deadlineExceeded) = none) ∧
    shutdownRun [1, 1, 0]
        (fun i => if 1 ≤ i then some CtxErr.deadlineExceeded else none) =
      some (some CtxErr.deadlineExceeded) := by
  constructor
  · intro n
    simp [shutdownRun, shutdownReturnIndex_replicate_one]
  · rfl

/-- C6 counterexample: the claim says any contract-violation error leaves
the writer in a state where Flush fails; but after WriteStream(-1)
returns ErrNegativeStreamCount, Flush succeeds (it writes the default
"OK" and flushes). -/
theorem C6_flush_can_succeed_after_violation :
    (responseWriter.init.WriteStream (-1)).1 = some RWErr.ErrNegativeStreamCount ∧
    ((responseWriter.init.WriteStream (-1)).2.Flush).1 = none :=
  ⟨rfl, rfl⟩

/-- C6 amended: an operation that returns a contract-violation error
leaves the responseWriter's state unchanged, so a subsequent Flush
returns an error exactly when it would have without the violating call
(in particular it can succeed). -/
theorem C6_violation_leaves_state_unchanged (s : responseWriter) (op : WOp) (e : RWErr)
    (h : (s.applyOpE op).1 = some e) (_hv : isContractViolation e = true) :
    (s.applyOpE op).2 = s := by
  cases op with
  | writeStream n =>
      by_cases hc : s.hasConn = false
      · simp [responseWriter.applyOpE, responseWriter.WriteStream, hc]
      · by_cases hn : n < 0
        · simp [responseWriter.applyOpE, responseWriter.WriteStream, hc, hn]
        · cases hwt : s.wtype <;>
            simp [responseWriter.applyOpE, responseWriter.WriteStream, hc, hn, hwt] at h ⊢
  | write v =>
      by_cases hc : s.hasConn = false
      · simp [responseWriter.applyOpE, responseWriter.Write, hc]
      · cases hwt : s.wtype
        · simp [responseWriter.applyOpE, responseWriter.Write, hc, hwt] at h
        · by_cases hr : s.remain = 0
          · simp [responseWriter.applyOpE, responseWriter.Write, hc, hwt, hr]
          · simp [responseWriter.applyOpE, responseWriter.Write, hc, hwt, hr] at h
        · by_cases hr : s.remain = 0
          · simp [responseWriter.applyOpE, responseWriter.Write, hc, hwt, hr]
          · simp [responseWriter.applyOpE, responseWriter.Write, hc, hwt, hr] at h

theorem C6_violation_leaves_state_unchanged_witness :
    (responseWriter.init.applyOpE (WOp.writeStream (-1))).2 = responseWriter.init :=
  C6_violation_leaves_state_unchanged responseWriter.init (WOp.writeStream (-1))
    RWErr.ErrNegativeStreamCount (by decide) (by decide)

/-- C7: Flush on the initial state (the handler wrote nothing) writes
exactly one value "OK" and flushes successfully; and for a writer in any
state reachable by handler operations, Flush with a non-zero remaining
write count returns ErrWriteCalledNotEnoughTimes. -/
theorem C7_flush_contract :
    responseWriter.init.Flush =
      (none, { hasConn := true, wtype := .oneshot, remain := 0,
               wire := [WireEvent.val "OK"] }) ∧
    ∀ ops : List WOp,
      (responseWriter.init.applyOps ops).remain ≠ 0 →
      ((responseWriter.init.applyOps ops).Flush).1 =
        some RWErr.ErrWriteCalledNotEnoughTimes := by
  refine ⟨rfl, ?_⟩
  intro ops hr
  obtain ⟨hc, hw⟩ := goodState_applyOps ops responseWriter.init goodState_init
  have hwt : ¬(responseWriter.init.applyOps ops).wtype = .notype := fun hh => hr (hw hh)
  simp [responseWriter.Flush, hc, hwt, hr]

theorem C7_flush_contract_witness :
    ((responseWriter.init.applyOps [WOp.writeStream 2]).Flush).1 =
      some RWErr.ErrWriteCalledNotEnoughTimes :=
  C7_flush_contract.2 [WOp.writeStream 2] (by decide)

/-- C8 counterexample: the claim says every Args variant reports Len() =
0 once an error is recorded; but byteArgs.Len ignores the stored error:
after a failed Next (unsupported destination kind) on a two-element
byteArgs, an error is recorded yet Len() returns 1. -/
theorem C8_byteargs_len_nonzero_after_error :
    (byteArgs.Next ⟨fun _ => true, fun _ => true, fun _ => true⟩ DstKind.unsupportedK
        ⟨["x", "y"], none⟩).2.err =
      some "unsupported output type for value in argument of a redis command" ∧
    (byteArgs.Next ⟨fun _ => true, fun _ => true, fun _ => true⟩ DstKind.unsupportedK
        ⟨["x", "y"], none⟩).2.Len = 1 :=
  ⟨rfl, rfl⟩

/-- C8 amended: once an error has been recorded, argsList, multiArgs and
argsError report Len() = 0; byteArgs.Len instead returns the number of
unconsumed raw arguments regardless of the recorded error. -/
theorem C8_len_after_error_per_variant
    (al : argsList) (m : multiArgs) (ae : argsError) (b : byteArgs)
    (h1 : al.err ≠ none) (h2 : m.err ≠ none) :
    al.Len = 0 ∧ m.Len = 0 ∧ ae.Len = 0 ∧ b.Len = b.args.length := by
  refine ⟨?_, ?_, rfl, rfl⟩
  · simp [argsList.Len, h1]
  · simp [multiArgs.Len, h2]

theorem C8_len_after_error_per_variant_witness :
    argsList.Len ⟨3, some "boom"⟩ = 0 ∧ multiArgs.Len ⟨[1, 2], 0, some "boom"⟩ = 0 := by
  have h := C8_len_after_error_per_variant ⟨3, some "boom"⟩ ⟨[1, 2], 0, some "boom"⟩
    ⟨none⟩ ⟨[], none⟩ (by simp) (by simp)
  exact ⟨h.1, h.2.1⟩

/-- C9: a handler that calls WriteStream(0) and never calls Write gets a
successful Flush, and the wire carries the empty array frame opened by
WriteStream rather than the default "OK" one-shot value. -/
theorem C9_empty_stream_flush :
    (responseWriter.init.WriteStream 0).1 = none ∧
    (responseWriter.init.WriteStream 0).2.Flush =
      (none, (responseWriter.init.WriteStream 0).2) ∧
    (responseWriter.init.WriteStream 0).2.wire = [WireEvent.openStream 0] :=
  ⟨rfl, rfl, rfl⟩

/-- C10: ParseArgs returns ErrNilArgs exactly when args is nil and at
least one destination is supplied; with nil args and no destinations the
guard is not taken and the call dereferences the nil Args value in
Close; with non-nil args the result comes from Close alone. -/
theorem C10_parseargs_nil_guard :
    (∀ d : Nat, ParseArgs none (d + 1) = PAResult.errNilArgs) ∧
    ParseArgs none 0 = PAResult.panicNilClose ∧
    (∀ (a : SimpleArgs) (d : Nat),
        ParseArgs (some a) d =
          match a.closeErr with
          | some e => PAResult.closeErr e
          | none => PAResult.ok) := by
  refine ⟨?_, rfl, ?_⟩
  · intro d
    simp [ParseArgs]
  · intro a d
    rfl

end RedisGo
